import Mathlib

/-!
Verification development for the `cslibs_mapping` ingestion/publication pipeline.

The definitions below are a shallow embedding of the two source translation
units:
 * `include/cslibs_mapping/mapper/mapper.hpp` — the `Mapper` base class:
   the filtering callback, the synchronized observation queue, the worker
   loop (`Mapper::loop`), `setup`, `start`, `saveMap`, and the destructor's
   stop/drain/join protocol.
 * `src/publisher/pointcloud_publisher.cpp` and the concatenated
   `occupancy_grid_mapper_3d.cpp` — the pointcloud publisher dispatch and
   the 3D occupancy mapper's `process`/`saveMap`.

Machine doubles are modelled as an IEEE-style sum type over exact rationals
(finite / +inf / -inf / NaN); times are natural numbers; observations are
identifiers.  Concurrency (worker thread vs. data-provider callbacks vs. the
destructor) is modelled as a sequentially consistent interleaving of
statement-granularity events, executed deterministically over an event list.
-/

namespace CslibsMapping

namespace Mapper

/-- Observation identifier (a `data_t::ConstPtr` in the source). -/
abbrev Obs := Nat

/-- Program counter of the worker thread inside `Mapper::loop`
(`mapper.hpp` lines 164-183), one value per source statement:
`outer` = the `while (!stop_)` test, `emptyChk` = the `if (queue_.empty())`
test, `waiting` = blocked in `notify_.wait_for(l, pd)`, `inner` = the
`while (queue_.hasElements())` test, `stopChk` = the `if (stop_) break`
test, `ready` = about to run `process(queue_.pop())` and the cadence
check, `done` = the loop has exited and the thread is finished. -/
inductive Pc
  | outer
  | emptyChk
  | waiting
  | inner
  | stopChk
  | ready
  | done
deriving DecidableEq, Repr

/-- One atomic event of the interleaved system: a data-provider callback
delivering an observation (`setup`'s lambda, lines 60-65), the worker's wait
returning (timeout or notify), one worker statement executing (`now` is the
value `cslibs_time::Time::now()` would read during it), the destructor
setting `stop_ = true` (line 40), the destructor popping one queued element
(lines 43-44), or the destructor joining the thread (lines 46-47). -/
inductive Ev
  | push (o : Obs)
  | wake
  | wstep (now : Nat)
  | reqStop
  | drainPop
  | join
deriving DecidableEq, Repr

/-- Recognizes delivery events. -/
def Ev.isPush : Ev → Bool
  | .push _ => true
  | _ => false

/-- State of one mapper instance together with its worker thread:
the worker pc, the `stop_` flag, the FIFO `queue_` contents, the list of
observations handed to `process` so far (in order), the observations the
destructor discarded, whether the thread was joined, the next cadence due
time (`pub` in the source), and the times at which `publish()` ran. -/
structure Sys where
  pc : Pc
  stop : Bool
  queue : List Obs
  processed : List Obs
  discarded : List Obs
  joined : Bool
  pubDue : Nat
  publishes : List Nat
deriving DecidableEq, Repr

/-- Initial state right after `start()`: the worker enters `loop`, with
`pub = start + publish_period_` for loop-entry time `start = 0`. -/
def sysInit (period : Nat) : Sys :=
  { pc := .outer
    stop := false
    queue := []
    processed := []
    discarded := []
    joined := false
    pubDue := period
    publishes := [] }

/-- One interleaving step.  `uses` is the mapper's acceptance predicate
(`Mapper::uses`, applied by the delivery callback before enqueueing),
`period` the publish period.  The `.ready` worker step is
`process(queue_.pop()); ++n;` followed by the per-observation cadence check
of lines 175-181 (publish and reschedule `pub = now + publish_period_`
when `now >= pub`). -/
def sysStep (uses : Obs → Bool) (period : Nat) (s : Sys) : Ev → Sys
  | .push o => if uses o then { s with queue := s.queue ++ [o] } else s
  | .wake => if s.pc = .waiting then { s with pc := .inner } else s
  | .reqStop => { s with stop := true }
  | .drainPop =>
      { s with queue := s.queue.tail, discarded := s.discarded ++ s.queue.take 1 }
  | .join => if s.pc = .done then { s with joined := true } else s
  | .wstep now =>
      match s.pc with
      | .outer => if s.stop then { s with pc := .done } else { s with pc := .emptyChk }
      | .emptyChk => if s.queue.isEmpty then { s with pc := .waiting } else { s with pc := .inner }
      | .waiting => s
      | .inner => if s.queue.isEmpty then { s with pc := .outer } else { s with pc := .stopChk }
      | .stopChk => if s.stop then { s with pc := .outer } else { s with pc := .ready }
      | .ready =>
          match s.queue with
          | [] => { s with pc := .inner }
          | o :: rest =>
              let s1 := { s with queue := rest, processed := s.processed ++ [o], pc := .inner }
              if s1.pubDue ≤ now then
                { s1 with publishes := s1.publishes ++ [now], pubDue := now + period }
              else s1
      | .done => s

/-- Run the system from a given state over a list of events. -/
def sysRun (uses : Obs → Bool) (period : Nat) (s : Sys) (l : List Ev) : Sys :=
  l.foldl (sysStep uses period) s

/-- Run the system from the initial state. -/
def sysExec (uses : Obs → Bool) (period : Nat) (l : List Ev) : Sys :=
  sysRun uses period (sysInit period) l

/-- State of the inner drain loop of `Mapper::loop` (lines 169-182) viewed
sequentially: observations applied so far, the next due time, and the
publish events so far (each records the loop's `now` and the full
registration-ordered consumer list handed snapshots by `Mapper::publish`). -/
structure DrainSt where
  applied : List Obs
  pubDue : Nat
  pubs : List (Nat × List String)
deriving DecidableEq, Repr

/-- One iteration of the inner while-loop body on a backlog entry: apply the
observation (whose processing finishes at time `o.2`), then check the
cadence clock; when due, publish to every registered consumer and
reschedule `pub = now + publish_period_`. -/
def drainStep (consumers : List String) (period : Nat) (s : DrainSt) (o : Obs × Nat) : DrainSt :=
  let s1 : DrainSt := { s with applied := s.applied ++ [o.1] }
  if s1.pubDue ≤ o.2 then
    { s1 with pubs := s1.pubs ++ [(o.2, consumers)], pubDue := o.2 + period }
  else s1

/-- Drain a whole backlog. -/
def drain (consumers : List String) (period : Nat) (s : DrainSt) (l : List (Obs × Nat)) : DrainSt :=
  l.foldl (drainStep consumers period) s

/-- Configuration read by `Mapper::setup` (lines 68-77, 96-97). -/
structure MapperCfg where
  map_frame : String
  publish_rate : ℚ
  tf_timeout : ℚ
  pub_n : Int
  data_provider_names : List String
  map_publisher_names : List String

/-- The errors `Mapper::setup` throws (`std::runtime_error`, lines 80, 87,
105, 116). -/
inductive SetupError
  | noDataProviders
  | dataProviderNotFound (name : String)
  | publisherNotFound (name : String)
  | mapInitFailed
deriving DecidableEq, Repr

/-- The state `setup` leaves behind on success: the publish period in
seconds, the connected provider handles, the resolved publishers, and
whether the "Using no publishers!" warning was printed. -/
structure SetupResult where
  publish_period : ℚ
  handles : List String
  publishers : List String
  warnedNoPublishers : Bool
deriving DecidableEq, Repr

/-- `publish_period_ = cslibs_time::Duration(rate == 0.0 ? 0.0 : (1.0 / rate))`
(line 70). -/
def publishPeriodOfRate (rate : ℚ) : ℚ :=
  if rate = 0 then 0 else 1 / rate

/-- The provider loop of lines 83-91: connect each named provider in order,
throwing at the first name absent from the registry. -/
def resolveProviders (registry : List String) : List String → Except SetupError (List String)
  | [] => .ok []
  | d :: rest =>
      if d ∈ registry then
        match resolveProviders registry rest with
        | .ok hs => .ok (d :: hs)
        | .error e => .error e
      else .error (.dataProviderNotFound d)

/-- The publisher loop of lines 103-109. -/
def resolvePublishers (registry : List String) : List String → Except SetupError (List String)
  | [] => .ok []
  | p :: rest =>
      if p ∈ registry then
        match resolvePublishers registry rest with
        | .ok ps => .ok (p :: ps)
        | .error e => .error e
      else .error (.publisherNotFound p)

/-- The publisher block of `setup` (lines 96-112): an empty configured list
only prints the "Using no publishers!" warning; a nonempty list must resolve
completely. -/
def setupPublishers (registry names : List String) : Except SetupError (List String × Bool) :=
  if names = [] then .ok ([], true)
  else
    match resolvePublishers registry names with
    | .error e => .error e
    | .ok ps => .ok (ps, false)

/-- `Mapper::setup` (lines 55-117): read parameters, fail if the provider
name list is empty, resolve every provider, resolve every publisher when the
publisher list is nonempty (an empty list only prints a warning), then
initialize the map (`setupMapOk` is the result of the virtual `setupMap`),
failing if it cannot be initialized. -/
def setup (cfg : MapperCfg) (providerRegistry publisherRegistry : List String)
    (setupMapOk : Bool) : Except SetupError SetupResult :=
  if cfg.data_provider_names = [] then .error .noDataProviders
  else
    match resolveProviders providerRegistry cfg.data_provider_names with
    | .error e => .error e
    | .ok handles =>
        match setupPublishers publisherRegistry cfg.map_publisher_names with
        | .error e => .error e
        | .ok (pubs, warned) =>
            if setupMapOk then
              .ok { publish_period := publishPeriodOfRate cfg.publish_rate,
                    handles := handles,
                    publishers := pubs, warnedNoPublishers := warned }
            else .error .mapInitFailed

end Mapper

/-! ## Machine doubles

An IEEE-754-style value: an exact finite rational, a signed infinity, or a
NaN.  Only the special-value propagation rules of `*` and `+` matter for the
claims (finite arithmetic is modelled exactly, without overflow). -/

inductive F
  | fin (q : ℚ)
  | pinf
  | ninf
  | nan
deriving DecidableEq, Repr

namespace F

/-- A value is well-formed when it is finite (neither an infinity nor NaN). -/
def isFinite : F → Bool
  | .fin _ => true
  | _ => false

/-- IEEE multiplication on the special values: NaN propagates,
`0 * ±inf = NaN`, a nonzero finite times an infinity is a signed infinity. -/
def mul : F → F → F
  | .nan, _ => .nan
  | _, .nan => .nan
  | .fin a, .fin b => .fin (a * b)
  | .fin a, .pinf => if a = 0 then .nan else if 0 < a then .pinf else .ninf
  | .fin a, .ninf => if a = 0 then .nan else if 0 < a then .ninf else .pinf
  | .pinf, .fin b => if b = 0 then .nan else if 0 < b then .pinf else .ninf
  | .ninf, .fin b => if b = 0 then .nan else if 0 < b then .ninf else .pinf
  | .pinf, .pinf => .pinf
  | .pinf, .ninf => .ninf
  | .ninf, .pinf => .ninf
  | .ninf, .ninf => .pinf

/-- IEEE addition on the special values: NaN propagates, opposite infinities
give NaN, an infinity absorbs finite addends. -/
def add : F → F → F
  | .nan, _ => .nan
  | _, .nan => .nan
  | .fin a, .fin b => .fin (a + b)
  | .fin _, .pinf => .pinf
  | .fin _, .ninf => .ninf
  | .pinf, .fin _ => .pinf
  | .ninf, .fin _ => .ninf
  | .pinf, .pinf => .pinf
  | .pinf, .ninf => .nan
  | .ninf, .pinf => .nan
  | .ninf, .ninf => .ninf

end F

/-- A 3D point with machine-double coordinates (`cslibs_math_3d::Point3d`). -/
structure Pt where
  x : F
  y : F
  z : F
deriving DecidableEq, Repr

/-- `Point3d::isNormal()`: every coordinate is well-formed (finite). -/
def Pt.isNormal (p : Pt) : Bool :=
  p.x.isFinite && p.y.isFinite && p.z.isFinite

/-- A rigid transform `o_T_d` resolved by the tf lookup: a 3x3 linear part
plus a translation, with machine-double entries. -/
structure Tf where
  r11 : F
  r12 : F
  r13 : F
  r21 : F
  r22 : F
  r23 : F
  r31 : F
  r32 : F
  r33 : F
  tx : F
  ty : F
  tz : F
deriving DecidableEq, Repr

namespace Tf

/-- All entries of the transform are finite. -/
def isFinite (T : Tf) : Bool :=
  T.r11.isFinite && T.r12.isFinite && T.r13.isFinite &&
  T.r21.isFinite && T.r22.isFinite && T.r23.isFinite &&
  T.r31.isFinite && T.r32.isFinite && T.r33.isFinite &&
  T.tx.isFinite && T.ty.isFinite && T.tz.isFinite

/-- `o_T_d * point`: each output coordinate is the inner product of a matrix
row with the point plus the translation component, in IEEE arithmetic. -/
def apply (T : Tf) (p : Pt) : Pt :=
  { x := (((T.r11.mul p.x).add (T.r12.mul p.y)).add (T.r13.mul p.z)).add T.tx
    y := (((T.r21.mul p.x).add (T.r22.mul p.y)).add (T.r23.mul p.z)).add T.ty
    z := (((T.r31.mul p.x).add (T.r32.mul p.y)).add (T.r33.mul p.z)).add T.tz }

/-- `o_T_d.translation()`, the origin passed to `insertPointCloud`. -/
def origin (T : Tf) : Pt :=
  { x := T.tx, y := T.ty, z := T.tz }

end Tf

namespace OccupancyGridMapper3D

/-- The payload of a `Pointcloud3d` observation (`occupancy_grid_mapper_3d.cpp`
lines 116-148): its source frame, the start of its validity interval (the tf
query time), and its point list — `cloud_data.points()` may be null. -/
structure CloudData where
  frame : String
  startTime : Nat
  points : Option (List Pt)

/-- The octomap, abstracted to its insertion history: each
`insertPointCloud(cloud, origin, -1, true, true)` call appends the cloud and
its origin. -/
structure OcTree where
  insertions : List (List Pt × Pt)
deriving DecidableEq, Repr

/-- `octomap::OcTree::insertPointCloud` — the representation's native update
operation, opaque here. -/
def insertPointCloud (m : OcTree) (cloud : List Pt) (origin : Pt) : OcTree :=
  { insertions := m.insertions ++ [(cloud, origin)] }

/-- The point loop of `process` (lines 134-140): keep a point only if it is
well-formed, transform it, and keep the transformed point only if that is
well-formed too. -/
def buildCloud (T : Tf) : List Pt → List Pt
  | [] => []
  | p :: rest =>
      if p.isNormal then
        if (T.apply p).isNormal then T.apply p :: buildCloud T rest
        else buildCloud T rest
      else buildCloud T rest

/-- `OccupancyGridMapper3D::process` (lines 116-148).  `lookup` models
`tf_->lookupTransform(map_frame_, frame, t, out, tf_timeout_)`: `none` is a
lookup that fails within the timeout.  On failure the function returns with
the map untouched (no exception escapes); on success, with a non-null point
list, the filtered transformed cloud is folded into the octomap. -/
def process (lookup : String → String → Nat → Option Tf) (map_frame : String)
    (m : OcTree) (d : CloudData) : OcTree :=
  match lookup map_frame d.frame d.startTime with
  | none => m
  | some T =>
      match d.points with
      | none => m
      | some pts => insertPointCloud m (buildCloud T pts) T.origin

/-- Applying a queue of observations in FIFO order, as the worker loop does. -/
def processAll (lookup : String → String → Nat → Option Tf) (map_frame : String)
    (m : OcTree) (l : List CloudData) : OcTree :=
  l.foldl (process lookup map_frame) m

/-- Filesystem outcomes `saveMap` depends on (`occupancy_grid_mapper_3d.cpp`
lines 150-185): whether `checkPath()` ends with `path_` a directory, whether
`create_directory(path_root)` succeeds, whether the `map.ot` stream opens,
and whether `map_->get()->write(...)` succeeds. -/
structure FsEnv where
  pathUsable : Bool
  createRootOk : Bool
  fileOpens : Bool
  writeSucceeds : Bool
deriving DecidableEq, Repr

/-- `OccupancyGridMapper3D::saveMap`: returns the reported success flag and
the list of map files actually written.  A null `map_` prints "No Map." and
returns `true` without touching the filesystem. -/
def saveMap (map : Option OcTree) (env : FsEnv) : Bool × List String :=
  match map with
  | none => (true, [])
  | some _ =>
      if !env.pathUsable then (false, [])
      else if !env.createRootOk then (false, [])
      else if !env.fileOpens then (false, [])
      else if env.writeSucceeds then (true, ["map.ot"])
      else (false, [])

end OccupancyGridMapper3D

/-! ## Map variants and the pointcloud publisher -/

/-- The concrete map variants relevant to `pointcloud_publisher.cpp`: the two
it supports (each holding a possibly-null inner map pointer, modelled by an
identifier) and a third variant it does not support. -/
inductive MapData
  | ndtGridMap3D (inner : Option Nat)
  | occupancyNDTGridMap3D (inner : Option Nat)
  | occupancyGridMap3D (inner : Option Nat)
deriving DecidableEq, Repr

/-- A `cslibs_mapping::maps::Map`: a frame label plus one stored variant,
fixed at construction. -/
structure MapT where
  frame : String
  data : MapData
deriving DecidableEq, Repr

/-- `map->isType<NDTGridMap3D>()`. -/
def MapT.isNDTGridMap3D (m : MapT) : Bool :=
  match m.data with
  | .ndtGridMap3D _ => true
  | _ => false

/-- `map->isType<OccupancyNDTGridMap3D>()`. -/
def MapT.isOccupancyNDTGridMap3D (m : MapT) : Bool :=
  match m.data with
  | .occupancyNDTGridMap3D _ => true
  | _ => false

/-- Failure of the variant accessor. -/
inductive CastError
  | typeMismatch
deriving DecidableEq, Repr

/-- Modelled from the spec: `maps/map.hpp` is not among the given sources;
the spec states `asVariant<T>() -> T or failure (fails with TypeMismatch if
the requested variant does not match the stored one)`.  Requesting the
`NDTGridMap3D` view yields the stored inner map only when the stored variant
matches. -/
def MapT.asNDTGridMap3D (m : MapT) : Except CastError (Option Nat) :=
  match m.data with
  | .ndtGridMap3D inner => .ok inner
  | _ => .error .typeMismatch

/-- Modelled from the spec: the `OccupancyNDTGridMap3D` view of the variant
accessor, failing with `TypeMismatch` on any other stored variant. -/
def MapT.asOccupancyNDTGridMap3D (m : MapT) : Except CastError (Option Nat) :=
  match m.data with
  | .occupancyNDTGridMap3D inner => .ok inner
  | _ => .error .typeMismatch

namespace PointcloudPublisher

/-- A published `sensor_msgs::PointCloud2`: stamp, frame id, and the inner
map it was converted from. -/
structure PcMsg where
  stamp : Nat
  frame_id : String
  source : Nat
deriving DecidableEq, Repr

/-- `PointcloudPublisher::uses` (`pointcloud_publisher.cpp` lines 13-17). -/
def uses (map : MapT) : Bool :=
  map.isNDTGridMap3D || map.isOccupancyNDTGridMap3D

/-- `PointcloudPublisher::publishNDTGridMap3D` (lines 46-61): convert and
publish when the inner map pointer is non-null, otherwise print
"Map could not be published!" and publish nothing. -/
def publishNDTGridMap3D (map : MapT) (time : Nat) : List PcMsg :=
  match map.asNDTGridMap3D with
  | .ok (some inner) => [{ stamp := time, frame_id := map.frame, source := inner }]
  | _ => []

/-- `PointcloudPublisher::publishOccupancyNDTGridMap3D` (lines 63-80):
publishes only when the inverse model `ivm_` was configured and the inner
map pointer is non-null. -/
def publishOccupancyNDTGridMap3D (ivm : Option Nat) (map : MapT) (time : Nat) : List PcMsg :=
  match ivm with
  | none => []
  | some _ =>
      match map.asOccupancyNDTGridMap3D with
      | .ok (some inner) => [{ stamp := time, frame_id := map.frame, source := inner }]
      | _ => []

/-- `PointcloudPublisher::doPublish` (lines 37-44): dispatch on the stored
variant tag; a map of neither supported variant only prints
"Got wrong map type!" and publishes nothing. -/
def doPublish (ivm : Option Nat) (map : MapT) (time : Nat) : List PcMsg :=
  if map.isNDTGridMap3D then publishNDTGridMap3D map time
  else if map.isOccupancyNDTGridMap3D then publishOccupancyNDTGridMap3D ivm map time
  else []

end PointcloudPublisher

/-! ## Helper lemmas -/

/-- Adding anything to a non-finite value never yields a finite value. -/
theorem F.add_not_finite_left {a : F} (b : F) (h : a.isFinite = false) :
    (F.add a b).isFinite = false := by
  cases a <;> cases b <;> simp_all [F.add, F.isFinite]

/-- Adding a non-finite value to anything never yields a finite value. -/
theorem F.add_not_finite_right (a : F) {b : F} (h : b.isFinite = false) :
    (F.add a b).isFinite = false := by
  cases a <;> cases b <;> simp_all [F.add, F.isFinite]

/-- Multiplying anything by a non-finite value never yields a finite value. -/
theorem F.mul_not_finite_right (a : F) {b : F} (h : b.isFinite = false) :
    (F.mul a b).isFinite = false := by
  cases a <;> cases b <;> simp_all [F.mul, F.isFinite] <;> split_ifs <;> rfl

/-- A point that is not well-formed stays not well-formed under any rigid
transform: in IEEE arithmetic every output coordinate mixes in every input
coordinate, and the special values survive multiplication and addition. -/
theorem Tf.apply_not_normal (T : Tf) {p : Pt} (hp : p.isNormal = false) :
    (T.apply p).isNormal = false := by
  have hx := fun h => F.mul_not_finite_right (b := p.x) T.r11 h
  simp only [Pt.isNormal, Bool.and_eq_false_iff] at hp
  rcases hp with hp | hp
  · rcases hp with hp | hp
    · have h1 : (T.r11.mul p.x).isFinite = false := F.mul_not_finite_right _ hp
      have h2 := F.add_not_finite_left (T.r12.mul p.y) h1
      have h3 := F.add_not_finite_left (T.r13.mul p.z) h2
      have h4 := F.add_not_finite_left T.tx h3
      simp [Tf.apply, Pt.isNormal, h4]
    · have h1 : (T.r12.mul p.y).isFinite = false := F.mul_not_finite_right _ hp
      have h2 := F.add_not_finite_right (T.r11.mul p.x) h1
      have h3 := F.add_not_finite_left (T.r13.mul p.z) h2
      have h4 := F.add_not_finite_left T.tx h3
      simp [Tf.apply, Pt.isNormal, h4]
  · have h1 : (T.r13.mul p.z).isFinite = false := F.mul_not_finite_right _ hp
    have h2 := F.add_not_finite_right ((T.r11.mul p.x).add (T.r12.mul p.y)) h1
    have h3 := F.add_not_finite_left T.tx h2
    simp [Tf.apply, Pt.isNormal, h3]

/-- The point loop of `process` builds exactly the transformed points that
are well-formed after the transform: the extra pre-transform `isNormal`
filter of the source discards nothing more, because non-well-formed points
remain non-well-formed after the transform. -/
theorem OccupancyGridMapper3D.buildCloud_eq_filter_map (T : Tf) (pts : List Pt) :
    OccupancyGridMapper3D.buildCloud T pts = (pts.map T.apply).filter Pt.isNormal := by
  induction pts with
  | nil => rfl
  | cons p rest ih =>
      by_cases hp : p.isNormal = true
      · by_cases hq : (T.apply p).isNormal = true
        · simp [OccupancyGridMapper3D.buildCloud, hp, hq, ih, List.filter]
        · simp only [Bool.not_eq_true] at hq
          simp [OccupancyGridMapper3D.buildCloud, hp, hq, ih, List.filter]
      · simp only [Bool.not_eq_true] at hp
        have hq := Tf.apply_not_normal T hp
        simp [OccupancyGridMapper3D.buildCloud, hp, hq, ih, List.filter]

namespace Mapper

/-- If every configured provider name is registered, the provider loop
connects them all. -/
theorem resolveProviders_ok_of_mem (registry : List String) :
    ∀ names : List String, (∀ d ∈ names, d ∈ registry) →
      ∃ hs, resolveProviders registry names = .ok hs
  | [], _ => ⟨[], rfl⟩
  | d :: rest, h => by
      have hd : d ∈ registry := h d (List.mem_cons_self d rest)
      obtain ⟨hs, hr⟩ := resolveProviders_ok_of_mem registry rest
        (fun e he => h e (List.mem_cons_of_mem d he))
      exact ⟨d :: hs, by simp [resolveProviders, hd, hr]⟩

/-- If the provider loop completes, every configured provider name was
registered. -/
theorem resolveProviders_mem_of_ok (registry : List String) :
    ∀ (names hs : List String),
      resolveProviders registry names = .ok hs → ∀ d ∈ names, d ∈ registry
  | [], _, _, d, hd => absurd hd (List.not_mem_nil d)
  | n :: rest, hs, h, d, hd => by
      by_cases hn : n ∈ registry
      · cases hr : resolveProviders registry rest with
        | ok hs2 =>
            rcases List.mem_cons.mp hd with rfl | hd2
            · exact hn
            · exact resolveProviders_mem_of_ok registry rest hs2 hr d hd2
        | error e =>
            rw [resolveProviders, if_pos hn, hr] at h
            cases h
      · rw [resolveProviders, if_neg hn] at h
        cases h

/-- If every configured publisher name is registered, the publisher loop
resolves them all. -/
theorem resolvePublishers_ok_of_mem (registry : List String) :
    ∀ names : List String, (∀ p ∈ names, p ∈ registry) →
      ∃ ps, resolvePublishers registry names = .ok ps
  | [], _ => ⟨[], rfl⟩
  | p :: rest, h => by
      have hp : p ∈ registry := h p (List.mem_cons_self p rest)
      obtain ⟨ps, hr⟩ := resolvePublishers_ok_of_mem registry rest
        (fun e he => h e (List.mem_cons_of_mem p he))
      exact ⟨p :: ps, by simp [resolvePublishers, hp, hr]⟩

/-- If the publisher loop completes, every configured publisher name was
registered. -/
theorem resolvePublishers_mem_of_ok (registry : List String) :
    ∀ (names ps : List String),
      resolvePublishers registry names = .ok ps → ∀ p ∈ names, p ∈ registry
  | [], _, _, p, hp => absurd hp (List.not_mem_nil p)
  | n :: rest, ps, h, p, hp => by
      by_cases hn : n ∈ registry
      · cases hr : resolvePublishers registry rest with
        | ok ps2 =>
            rcases List.mem_cons.mp hp with rfl | hp2
            · exact hn
            · exact resolvePublishers_mem_of_ok registry rest ps2 hr p hp2
        | error e =>
            rw [resolvePublishers, if_pos hn, hr] at h
            cases h
      · rw [resolvePublishers, if_neg hn] at h
        cases h

/-- The publisher block succeeds exactly when every configured publisher
name resolves (in particular, always with an empty configured list). -/
theorem setupPublishers_ok_iff (registry names : List String) :
    (∃ pw, setupPublishers registry names = .ok pw) ↔ ∀ p ∈ names, p ∈ registry := by
  by_cases h : names = []
  · subst h
    simp [setupPublishers]
  · constructor
    · rintro ⟨pw, hpw⟩
      rw [setupPublishers, if_neg h] at hpw
      cases hr : resolvePublishers registry names with
      | ok ps => exact resolvePublishers_mem_of_ok registry names ps hr
      | error e => rw [hr] at hpw; cases hpw
    · intro hmem
      obtain ⟨ps, hr⟩ := resolvePublishers_ok_of_mem registry names hmem
      exact ⟨(ps, false), by rw [setupPublishers, if_neg h, hr]⟩

/-- The publisher block records the warning exactly when the configured
publisher list is empty. -/
theorem setupPublishers_warned (registry names : List String)
    (ps : List String) (warned : Bool)
    (h : setupPublishers registry names = .ok (ps, warned)) :
    warned = true ↔ names = [] := by
  by_cases hn : names = []
  · subst hn
    rw [setupPublishers, if_pos rfl] at h
    cases h
    simp
  · rw [setupPublishers, if_neg hn] at h
    cases hr : resolvePublishers registry names with
    | ok qs => rw [hr] at h; cases h; simp [hn]
    | error e => rw [hr] at h; cases h

/-- Single-step preservation: every queued and every processed observation
was accepted by the filter.  The only way into the queue is the delivery
callback, which enqueues only accepted observations; the only way into
`processed` is popping the queue. -/
theorem sysStep_accepted (uses : Obs → Bool) (period : Nat) (s : Sys) (e : Ev)
    (hq : ∀ x ∈ s.queue, uses x = true) (hp : ∀ x ∈ s.processed, uses x = true) :
    (∀ x ∈ (sysStep uses period s e).queue, uses x = true) ∧
    (∀ x ∈ (sysStep uses period s e).processed, uses x = true) := by
  cases e with
  | push o =>
      by_cases ho : uses o = true
      · refine ⟨fun x hx => ?_, ?_⟩
        · simp only [sysStep, ho, if_true, List.mem_append, List.mem_singleton] at hx
          rcases hx with hx | rfl
          · exact hq x hx
          · exact ho
        · simpa [sysStep, ho] using hp
      · simp only [sysStep, Bool.not_eq_true] at ho ⊢
        rw [ho]
        exact ⟨by simpa using hq, by simpa using hp⟩
  | wake =>
      by_cases h : s.pc = .waiting <;> simp [sysStep, h] <;> exact ⟨hq, hp⟩
  | reqStop => exact ⟨hq, hp⟩
  | drainPop =>
      refine ⟨fun x hx => ?_, by simpa [sysStep] using hp⟩
      simp only [sysStep] at hx
      exact hq x (List.mem_of_mem_tail hx)
  | join =>
      by_cases h : s.pc = .done <;> simp [sysStep, h] <;> exact ⟨hq, hp⟩
  | wstep now =>
      cases hpc : s.pc with
      | outer =>
          by_cases h : s.stop = true <;> simp [sysStep, hpc, h] <;> exact ⟨hq, hp⟩
      | emptyChk =>
          by_cases h : s.queue.isEmpty <;> simp [sysStep, hpc, h] <;> exact ⟨hq, hp⟩
      | waiting => simp only [sysStep, hpc]; exact ⟨hq, hp⟩
      | inner =>
          by_cases h : s.queue.isEmpty <;> simp [sysStep, hpc, h] <;> exact ⟨hq, hp⟩
      | stopChk =>
          by_cases h : s.stop = true <;> simp [sysStep, hpc, h] <;> exact ⟨hq, hp⟩
      | done => simp only [sysStep, hpc]; exact ⟨hq, hp⟩
      | ready =>
          cases hqv : s.queue with
          | nil =>
              simp only [sysStep, hpc, hqv]
              exact ⟨by simp, hp⟩
          | cons o rest =>
              have ho : uses o = true := hq o (by simp [hqv])
              have hq2 : ∀ x ∈ rest, uses x = true :=
                fun x hx => hq x (by simp [hqv, hx])
              have hp2 : ∀ x : Obs, x ∈ s.processed ∨ x = o → uses x = true := by
                rintro x (hx | rfl)
                · exact hp x hx
                · exact ho
              simp only [sysStep, hpc, hqv]
              by_cases hdue : s.pubDue ≤ now <;> simp [hdue] <;> exact ⟨hq2, hp2⟩

/-- Run-level preservation of the acceptance invariant. -/
theorem sysRun_accepted (uses : Obs → Bool) (period : Nat) :
    ∀ (l : List Ev) (s : Sys),
      (∀ x ∈ s.queue, uses x = true) → (∀ x ∈ s.processed, uses x = true) →
      (∀ x ∈ (sysRun uses period s l).queue, uses x = true) ∧
      (∀ x ∈ (sysRun uses period s l).processed, uses x = true)
  | [], _, hq, hp => ⟨hq, hp⟩
  | e :: rest, s, hq, hp => by
      obtain ⟨hq2, hp2⟩ := sysStep_accepted uses period s e hq hp
      exact sysRun_accepted uses period rest (sysStep uses period s e) hq2 hp2

/-- Draining a concatenated backlog is draining the first part and then the
second. -/
theorem drain_append (consumers : List String) (period : Nat) (s : DrainSt)
    (xs ys : List (Obs × Nat)) :
    drain consumers period s (xs ++ ys) = drain consumers period (drain consumers period s xs) ys := by
  simp [drain, List.foldl_append]

/-- Draining starts with the head observation. -/
theorem drain_cons (consumers : List String) (period : Nat) (s : DrainSt)
    (o : Obs × Nat) (l : List (Obs × Nat)) :
    drain consumers period s (o :: l) = drain consumers period (drainStep consumers period s o) l :=
  rfl

/-- With a zero publish period the cadence check fires after every single
applied observation: provided time never runs backwards (the due time and
the successive observation times form a nondecreasing chain), each drained
observation appends exactly one publication to every consumer. -/
theorem drain_zero_period_pubs (consumers : List String) :
    ∀ (l : List (Obs × Nat)) (s : DrainSt),
      List.Chain' (· ≤ ·) (s.pubDue :: l.map Prod.snd) →
      (drain consumers 0 s l).pubs = s.pubs ++ l.map (fun o => (o.2, consumers))
  | [], s, _ => by simp [drain]
  | o :: rest, s, hchain => by
      rw [List.map_cons, List.chain'_cons] at hchain
      obtain ⟨h1, h2⟩ := hchain
      have hstep : drainStep consumers 0 s o =
          { applied := s.applied ++ [o.1], pubDue := o.2,
            pubs := s.pubs ++ [(o.2, consumers)] } := by
        simp [drainStep, h1]
      rw [drain_cons, hstep, drain_zero_period_pubs consumers rest _ h2]
      simp

/-- The nanosecond count the worker loop derives from the publish period
(`const std::chrono::nanoseconds pd(int(publish_period_.seconds() * 1e9))`,
line 160; truncation and flooring agree for the nonnegative periods in
use). -/
def periodNanos (seconds : ℚ) : ℤ :=
  ⌊seconds * 1000000000⌋

/-- Without any delivered observation the queue stays empty and the worker
neither publishes nor processes: `publish()` is reachable only inside the
inner drain loop, after a `process` call. -/
theorem sysRun_no_push (uses : Obs → Bool) (period : Nat) :
    ∀ (l : List Ev) (s : Sys),
      (∀ e ∈ l, e.isPush = false) → s.queue = [] →
      (sysRun uses period s l).queue = [] ∧
      (sysRun uses period s l).publishes = s.publishes ∧
      (sysRun uses period s l).processed = s.processed
  | [], _, _, hq => ⟨hq, rfl, rfl⟩
  | e :: rest, s, hl, hq => by
      have hstep : (sysStep uses period s e).queue = [] ∧
          (sysStep uses period s e).publishes = s.publishes ∧
          (sysStep uses period s e).processed = s.processed := by
        cases e with
        | push o =>
            exact absurd (hl _ (List.mem_cons_self _ _)) (by simp [Ev.isPush])
        | wake =>
            by_cases h : s.pc = .waiting <;> simp [sysStep, h, hq]
        | reqStop => exact ⟨hq, rfl, rfl⟩
        | drainPop => simp [sysStep, hq]
        | join =>
            by_cases h : s.pc = .done <;> simp [sysStep, h, hq]
        | wstep now =>
            cases hpc : s.pc <;>
              simp [sysStep, hpc, hq] <;> split_ifs <;> simp [hq]
      obtain ⟨hq2, hpub2, hproc2⟩ := hstep
      obtain ⟨ha, hb, hc⟩ := sysRun_no_push uses period rest (sysStep uses period s e)
        (fun x hx => hl x (List.mem_cons_of_mem e hx)) hq2
      exact ⟨ha, hb.trans hpub2, hc.trans hproc2⟩

/-- The worker is at the `process(queue_.pop())` statement (its stop check
already passed) in at most one pending instance: the number of observations
it may still apply once `stop_` is set. -/
def readyBudget (s : Sys) : Nat :=
  if s.pc = .ready then 1 else 0

/-- Single-step potential argument: once the stop flag is set it stays set,
and the processed count plus the remaining budget never grows. -/
theorem sysStep_stop_potential (uses : Obs → Bool) (period : Nat) (s : Sys) (e : Ev)
    (hs : s.stop = true) :
    (sysStep uses period s e).stop = true ∧
    (sysStep uses period s e).processed.length + readyBudget (sysStep uses period s e) ≤
      s.processed.length + readyBudget s := by
  cases e with
  | push o =>
      by_cases h : uses o = true <;> simp [sysStep, h, hs, readyBudget]
  | wake =>
      by_cases h : s.pc = .waiting <;> simp [sysStep, h, hs, readyBudget]
  | reqStop => simp [sysStep, hs, readyBudget]
  | drainPop => simp [sysStep, hs, readyBudget]
  | join =>
      by_cases h : s.pc = .done <;> simp [sysStep, h, hs, readyBudget]
  | wstep now =>
      cases hpc : s.pc with
      | outer => simp [sysStep, hpc, hs, readyBudget]
      | emptyChk =>
          by_cases h : s.queue.isEmpty <;> simp [sysStep, hpc, h, hs, readyBudget]
      | waiting => simp [sysStep, hpc, hs, readyBudget]
      | inner =>
          by_cases h : s.queue.isEmpty <;> simp [sysStep, hpc, h, hs, readyBudget]
      | stopChk => simp [sysStep, hpc, hs, readyBudget]
      | ready =>
          cases hqv : s.queue with
          | nil => simp [sysStep, hpc, hqv, hs, readyBudget]
          | cons o rest =>
              by_cases hdue : s.pubDue ≤ now <;>
                simp [sysStep, hpc, hqv, hs, hdue, readyBudget]
      | done => simp [sysStep, hpc, hs, readyBudget]

/-- Run-level potential argument: from any stopped state, at most
`readyBudget` further observations are ever handed to `process`. -/
theorem sysRun_stop_potential (uses : Obs → Bool) (period : Nat) :
    ∀ (l : List Ev) (s : Sys), s.stop = true →
      (sysRun uses period s l).processed.length ≤ s.processed.length + readyBudget s
  | [], s, _ => Nat.le_add_right _ _
  | e :: rest, s, hs => by
      obtain ⟨hs2, hpot⟩ := sysStep_stop_potential uses period s e hs
      exact le_trans (sysRun_stop_potential uses period rest (sysStep uses period s e) hs2) hpot

end Mapper

/-! ## Claim theorems -/

/-- C7: for every observation whose transform lookup fails within the
timeout, `process` leaves the map completely unchanged (and, being a total
function, raises no error out of the worker loop), and does not prevent the
next queued observation from being applied: processing the queue with the
failing observation in front equals processing the rest of the queue. -/
theorem OccupancyGridMapper3D.transform_failure_isolated
    (lookup : String → String → Nat → Option Tf) (map_frame : String)
    (m : OccupancyGridMapper3D.OcTree) (d : OccupancyGridMapper3D.CloudData)
    (rest : List OccupancyGridMapper3D.CloudData)
    (h : lookup map_frame d.frame d.startTime = none) :
    OccupancyGridMapper3D.process lookup map_frame m d = m ∧
    OccupancyGridMapper3D.processAll lookup map_frame m (d :: rest) =
      OccupancyGridMapper3D.processAll lookup map_frame m rest := by
  have hm : OccupancyGridMapper3D.process lookup map_frame m d = m := by
    unfold OccupancyGridMapper3D.process
    rw [h]
  exact ⟨hm, by simp [OccupancyGridMapper3D.processAll, List.foldl_cons, hm]⟩

/-- Closed witness for C7: a lookup that always fails drops the observation
and lets the following observation through. -/
theorem OccupancyGridMapper3D.transform_failure_isolated_witness :
    OccupancyGridMapper3D.process (fun _ _ _ => none) "/map" ⟨[]⟩ ⟨"laser", 5, some []⟩ = ⟨[]⟩ ∧
    OccupancyGridMapper3D.processAll (fun _ _ _ => none) "/map" ⟨[]⟩
        [⟨"laser", 5, some []⟩, ⟨"laser", 6, none⟩] =
      OccupancyGridMapper3D.processAll (fun _ _ _ => none) "/map" ⟨[]⟩ [⟨"laser", 6, none⟩] :=
  OccupancyGridMapper3D.transform_failure_isolated (fun _ _ _ => none) "/map"
    ⟨[]⟩ ⟨"laser", 5, some []⟩ [⟨"laser", 6, none⟩] rfl

/-- C8: when transform resolution succeeds, `process` behaves as: transform
every datum into map frame, discard exactly the data points that are not
well-formed after the transform, and fold all surviving points into the map
via the representation's native update (`insertPointCloud` with the
transform's translation as origin). -/
theorem OccupancyGridMapper3D.process_success_folds_wellformed
    (lookup : String → String → Nat → Option Tf) (map_frame : String)
    (m : OccupancyGridMapper3D.OcTree) (d : OccupancyGridMapper3D.CloudData)
    (T : Tf) (pts : List Pt)
    (hl : lookup map_frame d.frame d.startTime = some T)
    (hpts : d.points = some pts) :
    OccupancyGridMapper3D.process lookup map_frame m d =
      OccupancyGridMapper3D.insertPointCloud m
        ((pts.map T.apply).filter Pt.isNormal) T.origin := by
  unfold OccupancyGridMapper3D.process
  rw [hl, hpts]
  simp only [OccupancyGridMapper3D.buildCloud_eq_filter_map]

/-- Closed witness for C8: a concrete observation with one well-formed point
that stays well-formed, one whose transform is non-finite, and one that was
already non-finite; only the first survives. -/
theorem OccupancyGridMapper3D.process_success_folds_wellformed_witness :
    OccupancyGridMapper3D.process
        (fun _ _ _ => some { r11 := .fin 1, r12 := .fin 0, r13 := .fin 0,
                             r21 := .fin 0, r22 := .fin 1, r23 := .fin 0,
                             r31 := .fin 0, r32 := .fin 0, r33 := .fin 1,
                             tx := .fin 2, ty := .fin 0, tz := .fin 0 })
        "/map" ⟨[]⟩ ⟨"laser", 3, some [⟨.fin 1, .fin 1, .fin 1⟩, ⟨.nan, .fin 0, .fin 0⟩]⟩ =
      OccupancyGridMapper3D.insertPointCloud ⟨[]⟩
        (([⟨.fin 1, .fin 1, .fin 1⟩, ⟨.nan, .fin 0, .fin 0⟩].map
            (Tf.apply { r11 := .fin 1, r12 := .fin 0, r13 := .fin 0,
                        r21 := .fin 0, r22 := .fin 1, r23 := .fin 0,
                        r31 := .fin 0, r32 := .fin 0, r33 := .fin 1,
                        tx := .fin 2, ty := .fin 0, tz := .fin 0 })).filter Pt.isNormal)
        (Tf.origin { r11 := .fin 1, r12 := .fin 0, r13 := .fin 0,
                     r21 := .fin 0, r22 := .fin 1, r23 := .fin 0,
                     r31 := .fin 0, r32 := .fin 0, r33 := .fin 1,
                     tx := .fin 2, ty := .fin 0, tz := .fin 0 }) :=
  OccupancyGridMapper3D.process_success_folds_wellformed _ "/map" ⟨[]⟩
    ⟨"laser", 3, some [⟨.fin 1, .fin 1, .fin 1⟩, ⟨.nan, .fin 0, .fin 0⟩]⟩ _ _ rfl rfl

/-- C9: a variant accessor that does not match the stored variant fails with
`TypeMismatch` (never yielding a reference of the wrong kind), and the
pointcloud publisher, handed a map whose stored variant matches none of the
variants it supports, publishes no message for it. -/
theorem PointcloudPublisher.wrong_variant_rejected :
    (∀ m : MapT, m.isNDTGridMap3D = false →
        m.asNDTGridMap3D = .error .typeMismatch) ∧
    (∀ m : MapT, m.isOccupancyNDTGridMap3D = false →
        m.asOccupancyNDTGridMap3D = .error .typeMismatch) ∧
    (∀ (ivm : Option Nat) (m : MapT) (t : Nat),
        PointcloudPublisher.uses m = false →
        PointcloudPublisher.doPublish ivm m t = []) := by
  refine ⟨fun m h => ?_, fun m h => ?_, fun ivm m t h => ?_⟩
  · cases hm : m.data <;>
      simp_all [MapT.isNDTGridMap3D, MapT.asNDTGridMap3D]
  · cases hm : m.data <;>
      simp_all [MapT.isOccupancyNDTGridMap3D, MapT.asOccupancyNDTGridMap3D]
  · simp only [PointcloudPublisher.uses, Bool.or_eq_false_iff] at h
    simp [PointcloudPublisher.doPublish, h.1, h.2]

/-- Closed witness for C9: an `OccupancyGridMap3D`-variant map is rejected by
both accessors and produces no published message. -/
theorem PointcloudPublisher.wrong_variant_rejected_witness :
    (MapT.mk "/map" (.occupancyGridMap3D (some 4))).asNDTGridMap3D =
        .error .typeMismatch ∧
    (MapT.mk "/map" (.occupancyGridMap3D (some 4))).asOccupancyNDTGridMap3D =
        .error .typeMismatch ∧
    PointcloudPublisher.doPublish (some 1) (MapT.mk "/map" (.occupancyGridMap3D (some 4))) 7 = [] :=
  ⟨PointcloudPublisher.wrong_variant_rejected.1 _ rfl,
   PointcloudPublisher.wrong_variant_rejected.2.1 _ rfl,
   PointcloudPublisher.wrong_variant_rejected.2.2 (some 1) _ 7 rfl⟩

/-- C1 counterexample: the claim that every observation still in the queue
at the moment of a stop request is discarded without being processed fails.
Concretely: observation 7 is delivered and the worker advances to the
`process(queue_.pop())` statement — its `if (stop_)` check already passed,
but the `process` call has not begun (nothing has been popped or applied, so
no processing is in flight).  The destructor then sets `stop_ = true`.  At
that moment 7 is still in the queue; yet the interleaving in which the
worker executes its pending statement before the destructor's drain pops the
queue ends with 7 processed and nothing ever discarded. -/
theorem Mapper.stop_discard_counterexample :
    (Mapper.sysExec (fun _ => true) 100
        [.push 7, .wstep 0, .wstep 0, .wstep 0, .wstep 0]).stop = false ∧
    (Mapper.sysExec (fun _ => true) 100
        [.push 7, .wstep 0, .wstep 0, .wstep 0, .wstep 0]).processed = [] ∧
    (Mapper.sysExec (fun _ => true) 100
        [.push 7, .wstep 0, .wstep 0, .wstep 0, .wstep 0]).queue = [7] ∧
    (Mapper.sysExec (fun _ => true) 100
        ([.push 7, .wstep 0, .wstep 0, .wstep 0, .wstep 0] ++
          [.reqStop, .wstep 0, .drainPop, .join])).processed = [7] ∧
    (Mapper.sysExec (fun _ => true) 100
        ([.push 7, .wstep 0, .wstep 0, .wstep 0, .wstep 0] ++
          [.reqStop, .wstep 0, .drainPop, .join])).discarded = [] :=
  ⟨rfl, rfl, rfl, rfl, rfl⟩

/-- C1 (amended): once the stop flag is set, the worker applies at most one
further observation — the one whose `if (stop_)` check has already passed
(the program counter is at the `process(queue_.pop())` statement,
`readyBudget = 1`); from any other point it applies none
(`readyBudget = 0`).  Every other observation still queued is never handed
to `process`, in any continuation of the run. -/
theorem Mapper.stop_bounds_further_processing
    (uses : Mapper.Obs → Bool) (period : Nat) (s : Mapper.Sys) (l : List Mapper.Ev)
    (hs : s.stop = true) :
    (Mapper.sysRun uses period s l).processed.length ≤
      s.processed.length + Mapper.readyBudget s :=
  Mapper.sysRun_stop_potential uses period l s hs

/-- Closed witness for C1 (amended): from a stopped state away from the
`process` statement with an observation still queued, no continuation
processes anything. -/
theorem Mapper.stop_bounds_further_processing_witness :
    (Mapper.sysRun (fun _ => true) 7
        ⟨.outer, true, [5], [], [], false, 3, []⟩
        [.wstep 0, .wstep 1, .drainPop, .join]).processed.length ≤
      (⟨.outer, true, [5], [], [], false, 3, []⟩ : Mapper.Sys).processed.length +
        Mapper.readyBudget ⟨.outer, true, [5], [], [], false, 3, []⟩ :=
  Mapper.stop_bounds_further_processing (fun _ => true) 7
    ⟨.outer, true, [5], [], [], false, 3, []⟩ [.wstep 0, .wstep 1, .drainPop, .join] rfl

/-- C2 counterexample: with cadence `T = 10` and zero incoming observations
a consumer is claimed to receive a publication within `[T, T + ε]` of
`start()` and in every following interval.  In the run below the worker
passes through three full cadence periods (its wait times out at times 10,
20 and 30) with an empty queue, and publishes nothing at all — the due time
is still the initial `start + T` and no snapshot was ever delivered. -/
theorem Mapper.cadence_liveness_counterexample :
    (Mapper.sysExec (fun _ => true) 10
        [.wstep 0, .wstep 0, .wake, .wstep 10, .wstep 10, .wstep 10, .wake,
          .wstep 20, .wstep 20, .wstep 20, .wake, .wstep 30]).publishes = [] ∧
    (Mapper.sysExec (fun _ => true) 10
        [.wstep 0, .wstep 0, .wake, .wstep 10, .wstep 10, .wstep 10, .wake,
          .wstep 20, .wstep 20, .wstep 20, .wake, .wstep 30]).pubDue = 10 :=
  ⟨rfl, rfl⟩

/-- C2 (amended): with zero incoming observations the mapper never publishes
at all — `publish()` is reachable only inside the drain loop after a
`process` call, so a run without deliveries produces no publication (and
processes nothing), whatever its timing. -/
theorem Mapper.no_observations_no_publication
    (uses : Mapper.Obs → Bool) (period : Nat) (l : List Mapper.Ev)
    (hl : ∀ e ∈ l, e.isPush = false) :
    (Mapper.sysExec uses period l).publishes = [] ∧
    (Mapper.sysExec uses period l).processed = [] := by
  have h := Mapper.sysRun_no_push uses period l (Mapper.sysInit period) hl rfl
  unfold Mapper.sysExec
  exact ⟨h.2.1.trans rfl, h.2.2.trans rfl⟩

/-- Closed witness for C2 (amended). -/
theorem Mapper.no_observations_no_publication_witness :
    (Mapper.sysExec (fun _ => true) 10 [.wstep 0, .wstep 0, .wake, .wstep 25]).publishes = [] ∧
    (Mapper.sysExec (fun _ => true) 10 [.wstep 0, .wstep 0, .wake, .wstep 25]).processed = [] :=
  Mapper.no_observations_no_publication (fun _ => true) 10
    [.wstep 0, .wstep 0, .wake, .wstep 25] (by decide)

/-- C3 counterexample: a publish rate of 0 does not disable periodic
publication.  The source maps rate 0 to a publish period of 0 seconds (not
an infinite cadence), whose nanosecond conversion is 0; with a zero period
the cadence clock is due immediately, so draining a single observation
performs a cadence-triggered publication. -/
theorem Mapper.rate_zero_counterexample :
    Mapper.publishPeriodOfRate 0 = 0 ∧
    Mapper.periodNanos (Mapper.publishPeriodOfRate 0) = 0 ∧
    (Mapper.drain ["consumer"] 0 ⟨[], 0, []⟩ [(1, 0)]).pubs = [(0, ["consumer"])] := by
  refine ⟨by simp [Mapper.publishPeriodOfRate], ?_, rfl⟩
  simp [Mapper.periodNanos, Mapper.publishPeriodOfRate]

/-- C3 (amended): a publish rate of 0 yields a zero publish period, so far
from being disabled, the cadence clock is due after every applied
observation: whenever time is nondecreasing along the drain, every drained
observation triggers one snapshot publication to every registered
consumer. -/
theorem Mapper.rate_zero_publishes_every_observation
    (consumers : List String) (s : Mapper.DrainSt) (l : List (Mapper.Obs × Nat))
    (hchain : List.Chain' (· ≤ ·) (s.pubDue :: l.map Prod.snd)) :
    Mapper.publishPeriodOfRate 0 = 0 ∧
    (Mapper.drain consumers 0 s l).pubs = s.pubs ++ l.map (fun o => (o.2, consumers)) :=
  ⟨by simp [Mapper.publishPeriodOfRate], Mapper.drain_zero_period_pubs consumers l s hchain⟩

/-- Closed witness for C3 (amended): two observations, two publications. -/
theorem Mapper.rate_zero_publishes_every_observation_witness :
    Mapper.publishPeriodOfRate 0 = 0 ∧
    (Mapper.drain ["c"] 0 ⟨[], 2, []⟩ [(1, 2), (2, 3)]).pubs =
      (⟨[], 2, []⟩ : Mapper.DrainSt).pubs ++
        [((1 : Mapper.Obs), 2), (2, 3)].map (fun o => (o.2, ["c"])) :=
  Mapper.rate_zero_publishes_every_observation ["c"] ⟨[], 2, []⟩ [(1, 2), (2, 3)]
    (by norm_num [List.chain'_cons, List.chain'_singleton])

/-- C4: while draining a backlog the cadence clock is checked after every
individually applied observation, not only after the whole drain: whenever
the clock is due right after some observation `o` (with arbitrary backlog
`xs` before it and `ys` still pending after it), the publication to every
registered consumer is recorded at that point — before any of `ys` is
processed — and the next due time is rescheduled to `o`'s completion time
plus the cadence. -/
theorem Mapper.cadence_checked_after_each_observation
    (consumers : List String) (period : Nat) (s : Mapper.DrainSt)
    (xs : List (Mapper.Obs × Nat)) (o : Mapper.Obs × Nat) (ys : List (Mapper.Obs × Nat))
    (hdue : (Mapper.drain consumers period s xs).pubDue ≤ o.2) :
    Mapper.drain consumers period s (xs ++ o :: ys) =
      Mapper.drain consumers period
        { applied := (Mapper.drain consumers period s xs).applied ++ [o.1]
          pubDue := o.2 + period
          pubs := (Mapper.drain consumers period s xs).pubs ++ [(o.2, consumers)] } ys := by
  have hstep : Mapper.drainStep consumers period (Mapper.drain consumers period s xs) o =
      { applied := (Mapper.drain consumers period s xs).applied ++ [o.1]
        pubDue := o.2 + period
        pubs := (Mapper.drain consumers period s xs).pubs ++ [(o.2, consumers)] } := by
    simp [Mapper.drainStep, hdue]
  rw [Mapper.drain_append, Mapper.drain_cons, hstep]

/-- Closed witness for C4: the middle observation of a three-element backlog
is due, so the publication is recorded mid-drain and the due time is reset
to its completion time plus the period. -/
theorem Mapper.cadence_checked_after_each_observation_witness :
    Mapper.drain ["a", "b"] 5 ⟨[], 3, []⟩ ([(1, 1)] ++ (2, 4) :: [(3, 6)]) =
      Mapper.drain ["a", "b"] 5
        { applied := (Mapper.drain ["a", "b"] 5 ⟨[], 3, []⟩ [(1, 1)]).applied ++ [2]
          pubDue := 4 + 5
          pubs := (Mapper.drain ["a", "b"] 5 ⟨[], 3, []⟩ [(1, 1)]).pubs ++ [(4, ["a", "b"])] }
        [(3, 6)] :=
  Mapper.cadence_checked_after_each_observation ["a", "b"] 5 ⟨[], 3, []⟩
    [(1, 1)] (2, 4) [(3, 6)] (by decide)

/-- C5: a delivered observation that the acceptance filter rejects is never
enqueued — the delivery callback leaves the whole state (in particular the
queue contents) unchanged — and in no execution of the system does it ever
appear in the queue or get handed to `process`. -/
theorem Mapper.rejected_observation_never_seen
    (uses : Mapper.Obs → Bool) (period : Nat) (o : Mapper.Obs) (ho : uses o = false) :
    (∀ s : Mapper.Sys, Mapper.sysStep uses period s (.push o) = s) ∧
    (∀ l : List Mapper.Ev, o ∉ (Mapper.sysExec uses period l).queue ∧
      o ∉ (Mapper.sysExec uses period l).processed) := by
  constructor
  · intro s
    simp [Mapper.sysStep, ho]
  · intro l
    have h := Mapper.sysRun_accepted uses period l (Mapper.sysInit period)
      (by simp [Mapper.sysInit]) (by simp [Mapper.sysInit])
    unfold Mapper.sysExec
    constructor
    · intro hmem
      have := h.1 o hmem
      rw [ho] at this
      cases this
    · intro hmem
      have := h.2 o hmem
      rw [ho] at this
      cases this

/-- Closed witness for C5: with the filter accepting even identifiers only,
delivering the rejected observation 3 changes nothing, and 3 never reaches
the queue or `process` in a run that delivers 3 and 2 and lets the worker
drain. -/
theorem Mapper.rejected_observation_never_seen_witness :
    Mapper.sysStep (fun x => decide (x % 2 = 0)) 10 (Mapper.sysInit 10) (.push 3) =
        Mapper.sysInit 10 ∧
    (3 ∉ (Mapper.sysExec (fun x => decide (x % 2 = 0)) 10
        [.push 3, .push 2, .wstep 0, .wstep 0, .wstep 0, .wstep 0, .wstep 0]).queue ∧
      3 ∉ (Mapper.sysExec (fun x => decide (x % 2 = 0)) 10
        [.push 3, .push 2, .wstep 0, .wstep 0, .wstep 0, .wstep 0, .wstep 0]).processed) :=
  ⟨(Mapper.rejected_observation_never_seen (fun x => decide (x % 2 = 0)) 10 3 rfl).1
      (Mapper.sysInit 10),
   (Mapper.rejected_observation_never_seen (fun x => decide (x % 2 = 0)) 10 3 rfl).2
      [.push 3, .push 2, .wstep 0, .wstep 0, .wstep 0, .wstep 0, .wstep 0]⟩

/-- C6: `setup` succeeds exactly when the configured source-name list is
nonempty, every named source is in the source registry, every named
consumer is in the consumer registry, and the concrete map initializes;
an empty consumer list is permitted and merely records the warning (the
warning is recorded exactly for an empty consumer list). -/
theorem Mapper.setup_fails_iff_configuration_error
    (cfg : Mapper.MapperCfg) (provReg pubReg : List String) (setupMapOk : Bool) :
    ((∃ r, Mapper.setup cfg provReg pubReg setupMapOk = .ok r) ↔
      (cfg.data_provider_names ≠ [] ∧
       (∀ d ∈ cfg.data_provider_names, d ∈ provReg) ∧
       (∀ p ∈ cfg.map_publisher_names, p ∈ pubReg) ∧
       setupMapOk = true)) ∧
    (∀ r, Mapper.setup cfg provReg pubReg setupMapOk = .ok r →
      (r.warnedNoPublishers = true ↔ cfg.map_publisher_names = [])) := by
  by_cases h0 : cfg.data_provider_names = []
  · rw [Mapper.setup] at *
    simp [h0]
  · rw [Mapper.setup, if_neg h0]
    cases hp : Mapper.resolveProviders provReg cfg.data_provider_names with
    | error e =>
        refine ⟨⟨?_, ?_⟩, ?_⟩
        · rintro ⟨r, hr⟩
          cases hr
        · rintro ⟨-, hmem, -, -⟩
          obtain ⟨hs, hok⟩ := Mapper.resolveProviders_ok_of_mem provReg _ hmem
          rw [hok] at hp
          cases hp
        · intro r hr
          cases hr
    | ok handles =>
        have hmemP := Mapper.resolveProviders_mem_of_ok provReg _ handles hp
        cases hq : Mapper.setupPublishers pubReg cfg.map_publisher_names with
        | error e =>
            refine ⟨⟨?_, ?_⟩, ?_⟩
            · rintro ⟨r, hr⟩
              cases hr
            · rintro ⟨-, -, hmem, -⟩
              obtain ⟨pw, hok⟩ := (Mapper.setupPublishers_ok_iff pubReg _).mpr hmem
              rw [hok] at hq
              cases hq
            · intro r hr
              cases hr
        | ok pw =>
            obtain ⟨pubs, warned⟩ := pw
            have hwarn := Mapper.setupPublishers_warned pubReg _ pubs warned hq
            have hmemQ : ∀ p ∈ cfg.map_publisher_names, p ∈ pubReg :=
              (Mapper.setupPublishers_ok_iff pubReg _).mp ⟨(pubs, warned), hq⟩
            cases setupMapOk with
            | false =>
                refine ⟨⟨?_, ?_⟩, ?_⟩
                · rintro ⟨r, hr⟩
                  simp at hr
                · rintro ⟨-, -, -, hok⟩
                  cases hok
                · intro r hr
                  simp at hr
            | true =>
                refine ⟨⟨fun _ => ⟨h0, hmemP, hmemQ, rfl⟩, fun _ => ⟨_, if_pos rfl⟩⟩, ?_⟩
                intro r hr
                dsimp only at hr
                rw [if_pos rfl] at hr
                injection hr with hr
                rw [← hr]
                exact hwarn

/-- Closed witness for C6: a configuration naming one registered source and
one registered consumer sets up successfully. -/
theorem Mapper.setup_fails_iff_configuration_error_witness :
    ∃ r, Mapper.setup
        { map_frame := "/map", publish_rate := 10, tf_timeout := 1/10, pub_n := 10,
          data_provider_names := ["scan"], map_publisher_names := ["cloud"] }
        ["scan", "odom"] ["cloud"] true = .ok r :=
  (Mapper.setup_fails_iff_configuration_error
      { map_frame := "/map", publish_rate := 10, tf_timeout := 1/10, pub_n := 10,
        data_provider_names := ["scan"], map_publisher_names := ["cloud"] }
      ["scan", "odom"] ["cloud"] true).1.mpr
    (by refine ⟨by simp, ?_, ?_, rfl⟩ <;> simp)

/-- C10: `saveMap` on a mapper whose map was never initialized reports
success (`true`) while writing no file at all, whatever the filesystem would
have allowed. -/
theorem OccupancyGridMapper3D.saveMap_null_map_reports_success :
    ∀ env : OccupancyGridMapper3D.FsEnv,
      OccupancyGridMapper3D.saveMap none env = (true, []) :=
  fun _ => rfl

end CslibsMapping
